import Mathlib

/-!
Shallow embedding of the GST business-assessment pipeline
(`src/streamlit_app.py`): tabular parsing, monthly aggregation,
aggregate metrics, scheme eligibility, and loan assessment.

Modelling conventions:
* pandas DataFrames become `DataFrame`: a list of column names plus rows of
  optional cells (a missing cell models NaN).  Numeric cell values are `ℚ`
  (Python floats are modelled as exact rationals); textual cells are strings.
* Python dicts holding the fixed-shape records become Lean structures.
* Code that can raise (KeyError on a missing column, a date-parse error)
  returns `Except String _`.
* `pandas.read_csv` is modelled as a simple split-on-separator parser for
  unquoted CSV text, keeping every cell as a raw string (the claims under
  study only concern column-name handling).  `pandas.read_excel` applied to
  text content is modelled as the failure path (empty DataFrame).
* `pandas.to_datetime` is modelled as an ISO `YYYY-MM-DD` parser that fails
  on anything else; `datetime.now()` becomes an explicit day-number argument.
-/

namespace GST

/-- A cell value of a parsed table: a number or a string. -/
inductive Val where
  | num (q : ℚ)
  | str (s : String)
deriving DecidableEq, Repr

/-- A cell: `none` models NaN / a missing value. -/
abbrev Cell := Option Val

/-- Model of a pandas DataFrame: column labels plus rows of cells, a row's
cells aligned positionally with the column labels. -/
structure DataFrame where
  cols : List String
  rows : List (List Cell)
deriving DecidableEq, Repr

/-- `df.empty` in pandas: true when either axis has length zero. -/
def DataFrame.isEmptyDF (df : DataFrame) : Bool :=
  df.rows.isEmpty || df.cols.isEmpty

/-- Extract the column named `c` as a list of cells (one per row); used only
when `c ∈ df.cols`.  Models `df[c]`. -/
def DataFrame.col (df : DataFrame) (c : String) : List Cell :=
  match df.cols.findIdx? (· = c) with
  | none => []
  | some i => df.rows.map (fun r => (r.get? i).join)

/-- Numeric view of a cell after `fillna(0)`: NaN becomes `0`; a stray
textual cell in a numeric column is also read as `0`. -/
def cellNum (c : Cell) : ℚ :=
  match c with
  | some (Val.num q) => q
  | _ => 0

/-- `df[c].fillna(0).sum()`. -/
def DataFrame.sumColFilled (df : DataFrame) (c : String) : ℚ :=
  ((df.col c).map cellNum).sum

/-- `(df[a].fillna(0) * df[b].fillna(0) / 100).sum()` — the rowwise
GST contribution of a taxable-value column times a rate column. -/
def DataFrame.gstSum (df : DataFrame) (a b : String) : ℚ :=
  (List.zipWith (fun x y => cellNum x * cellNum y / 100) (df.col a) (df.col b)).sum

/-- `df[c].dropna().unique()`: the distinct present values (the claims under
study are insensitive to the order of this list). -/
def DataFrame.colDistinct (df : DataFrame) (c : String) : List Val :=
  ((df.col c).filterMap id).dedup

/-- `df[c].nunique()`. -/
def DataFrame.nuniqueCol (df : DataFrame) (c : String) : Nat :=
  (df.colDistinct c).length

/-- Python `str.split(sep)` on a list of characters (structural, so that the
kernel can evaluate it). -/
def splitOnChar (sep : Char) : List Char → List (List Char)
  | [] => [[]]
  | c :: rest =>
      let r := splitOnChar sep rest
      if c = sep then [] :: r
      else
        match r with
        | [] => [[c]]
        | h :: t => (c :: h) :: t

/-- Python `str.strip()` / pandas `.str.strip()` on a character list: drop
leading and trailing whitespace. -/
def stripList (l : List Char) : List Char :=
  ((l.dropWhile Char.isWhitespace).reverse.dropWhile Char.isWhitespace).reverse

/-- Python `str.strip()` on a string. -/
def pdStrip (s : String) : String :=
  ⟨stripList s.data⟩

/-- Model of `pandas.read_csv` on simple unquoted CSV text: the first line
is split on commas into column labels, each further line into string cells. -/
def parseCSV (content : String) : DataFrame :=
  match splitOnChar '\n' content.data with
  | [] => ⟨[], []⟩
  | header :: rest =>
      ⟨(splitOnChar ',' header).map (fun l => String.mk l),
       rest.map (fun line => (splitOnChar ',' line).map (fun cell => some (Val.str ⟨cell⟩)))⟩

/-- `GSTDataAnalyzer.parse_b2b_file`: read the CSV, then strip every column
label (`df.columns = df.columns.str.strip()`). -/
def parse_b2b_file (content : String) : DataFrame :=
  let df := parseCSV content
  ⟨df.cols.map pdStrip, df.rows⟩

/-- `GSTDataAnalyzer.parse_b2c_file`: identical to the B2B parser. -/
def parse_b2c_file (content : String) : DataFrame :=
  let df := parseCSV content
  ⟨df.cols.map pdStrip, df.rows⟩

/-- Python `str.startswith` via character lists. -/
def pyStartswith (s pre : String) : Bool :=
  pre.data.isPrefixOf s.data

/-- `GSTDataAnalyzer.parse_purchase_file`: CSV when the content starts with
`GSTIN`, otherwise the content is handed to the spreadsheet reader, which
fails on text content and is caught, yielding an empty DataFrame.  Note:
this parser performs no column-name stripping. -/
def parse_purchase_file (content : String) : DataFrame :=
  if pyStartswith content "GSTIN" then parseCSV content
  else ⟨[], []⟩

/-- The fixed-shape per-month record built by
`GSTDataAnalyzer.analyze_monthly_data` (the `analysis` dict). -/
structure MonthlySummary where
  month : String
  b2b_transactions : Nat
  b2c_transactions : Nat
  purchase_transactions : Nat
  b2b_sales : ℚ
  b2c_sales : ℚ
  total_sales : ℚ
  total_purchases : ℚ
  gst_collected : ℚ
  gst_paid : ℚ
  tax_rates_used : List Val
  interstate_sales : ℚ
  intrastate_sales : ℚ
  unique_customers : Nat
deriving DecidableEq, Repr

/-- The B2B block of `analyze_monthly_data` (lines 79–97): on a non-empty
table, `b2b_df['Invoice Value']` is accessed unconditionally (a missing
column is a KeyError); the GST, unique-customer and rate sub-computations
are each guarded by a column-presence check.  Yields
`(b2b_sales, gst contribution, unique_customers, rates)`. -/
def b2bBlock (df : DataFrame) : Except String (ℚ × ℚ × Nat × List Val) :=
  if df.isEmptyDF then Except.ok (0, 0, 0, [])
  else if "Invoice Value" ∈ df.cols then
    Except.ok (df.sumColFilled "Invoice Value",
      (if "Taxable Value" ∈ df.cols ∧ "Rate" ∈ df.cols then
         df.gstSum "Taxable Value" "Rate" else 0),
      (if "GSTIN/UIN of Recipient" ∈ df.cols then
         df.nuniqueCol "GSTIN/UIN of Recipient" else 0),
      (if "Rate" ∈ df.cols then df.colDistinct "Rate" else []))
  else Except.error "KeyError: Invoice Value"

/-- The B2C block of `analyze_monthly_data` (lines 99–112): on a non-empty
table, `b2c_df['Taxable Value']` is accessed unconditionally; the GST and
rate sub-computations are both guarded by the presence of `Rate`.  Yields
`(b2c_sales, gst contribution, rates)`. -/
def b2cBlock (df : DataFrame) : Except String (ℚ × ℚ × List Val) :=
  if df.isEmptyDF then Except.ok (0, 0, [])
  else if "Taxable Value" ∈ df.cols then
    Except.ok (df.sumColFilled "Taxable Value",
      (if "Rate" ∈ df.cols then df.gstSum "Taxable Value" "Rate" else 0),
      (if "Rate" ∈ df.cols then df.colDistinct "Rate" else []))
  else Except.error "KeyError: Taxable Value"

/-- The purchase block of `analyze_monthly_data` (lines 120–126): prefer
`Taxable Value`, fall back to `Invoice Value`, else `0`; both accesses are
guarded, so this block never fails. -/
def purchaseBlock (df : DataFrame) : ℚ :=
  if df.isEmptyDF then 0
  else if "Taxable Value" ∈ df.cols then df.sumColFilled "Taxable Value"
  else if "Invoice Value" ∈ df.cols then df.sumColFilled "Invoice Value"
  else 0

/-- `GSTDataAnalyzer.analyze_monthly_data`: reduce one month's three tables
to a `MonthlySummary`; a KeyError from an unguarded column access
propagates as `Except.error`. -/
def analyze_monthly_data (month_name : String) (b2b_df b2c_df purchase_df : DataFrame) :
    Except String MonthlySummary := do
  let (b2bSales, gstB2b, uniq, ratesB2b) ← b2bBlock b2b_df
  let (b2cSales, gstB2c, ratesB2c) ← b2cBlock b2c_df
  Except.ok
    { month := month_name
      b2b_transactions := b2b_df.rows.length
      b2c_transactions := b2c_df.rows.length
      purchase_transactions := purchase_df.rows.length
      b2b_sales := b2bSales
      b2c_sales := b2cSales
      total_sales := b2bSales + b2cSales
      total_purchases := purchaseBlock purchase_df
      gst_collected := gstB2b + gstB2c
      gst_paid := 0
      tax_rates_used := (ratesB2b ++ ratesB2c).dedup
      interstate_sales := 0
      intrastate_sales := 0
      unique_customers := uniq }

/-- The fixed-shape record returned by
`GSTDataAnalyzer.calculate_aggregate_metrics`. -/
structure BusinessMetrics where
  annual_turnover : ℚ
  total_sales : ℚ
  total_purchases : ℚ
  avg_monthly_sales : ℚ
  total_gst_collected : ℚ
  b2b_percentage : ℚ
  b2c_percentage : ℚ
  filing_frequency : Nat
  avg_transactions_per_month : ℚ
  uses_standard_rates : Bool
  profit_margin_estimate : ℚ
  gst_compliance_score : ℚ
deriving DecidableEq, Repr

/-- The standard GST rates recognised by the aggregator. -/
def standardRates : List Val :=
  [Val.num 0, Val.num 5, Val.num 12, Val.num 18, Val.num 28]

/-- The body of `GSTDataAnalyzer.calculate_aggregate_metrics` past the
empty-input early return. -/
def aggregateBody (ms : List MonthlySummary) : BusinessMetrics :=
  let total_sales := (ms.map (·.total_sales)).sum
  let total_purchases := (ms.map (·.total_purchases)).sum
  let total_gst_collected := (ms.map (·.gst_collected)).sum
  let avg_monthly_sales := total_sales / (ms.length : ℚ)
  let annual_turnover := total_sales / (ms.length : ℚ) * 12
  let b2b_total := (ms.map (·.b2b_sales)).sum
  let b2b_percentage := if total_sales > 0 then b2b_total / total_sales * 100 else 0
  let avg_transactions_per_month :=
    ((ms.map (fun m => ((m.b2b_transactions + m.b2c_transactions : Nat) : ℚ))).sum) / (ms.length : ℚ)
  let filing_frequency := ms.length
  let all_rates := (ms.map (·.tax_rates_used)).flatten
  let uses_standard_rates := all_rates.dedup.all (fun r => decide (r ∈ standardRates))
  { annual_turnover
    total_sales
    total_purchases
    avg_monthly_sales
    total_gst_collected
    b2b_percentage
    b2c_percentage := 100 - b2b_percentage
    filing_frequency
    avg_transactions_per_month
    uses_standard_rates
    profit_margin_estimate :=
      if total_sales > 0 then
        max 5 (min 25 ((total_sales - total_purchases) / total_sales * 100))
      else 10
    gst_compliance_score :=
      min 100 ((filing_frequency : ℚ) * 15 + (if uses_standard_rates then 50 else 0)) }

/-- `GSTDataAnalyzer.calculate_aggregate_metrics`: reduce a sequence of
monthly summaries to one `BusinessMetrics`; the empty sequence yields the
empty dict, modelled as `none`. -/
def calculate_aggregate_metrics (ms : List MonthlySummary) : Option BusinessMetrics :=
  if ms.isEmpty then none else some (aggregateBody ms)

/-- The externally supplied business record (`st.session_state.business_data`). -/
structure BusinessProfile where
  gstin : String
  business_name : String
  business_type : String
  business_category : String
  incorporation_date : String
  state : String
deriving DecidableEq, Repr

/-- A calendar date as `(year, month, day)`. -/
abbrev Date := Nat × Nat × Nat

/-- Digit check for a character list (Python-style numeric field). -/
def isDigits (l : List Char) : Bool :=
  !l.isEmpty && l.all Char.isDigit

/-- Decimal value of a digit list. -/
def natOfDigits (l : List Char) : Nat :=
  l.foldl (fun n c => n * 10 + (c.toNat - 48)) 0

/-- Parse a digit-only field. -/
def parseNatField (l : List Char) : Option Nat :=
  if isDigits l then some (natOfDigits l) else none

/-- Model of `pandas.to_datetime` on a string, restricted to the ISO
`YYYY-MM-DD` form the application produces (`date.strftime('%Y-%m-%d')`);
any other string fails, as `to_datetime` raises on unparseable input. -/
def parseDate (s : String) : Option Date :=
  match splitOnChar '-' s.data with
  | [ys, ms, ds] =>
      match parseNatField ys, parseNatField ms, parseNatField ds with
      | some y, some m, some d =>
          if 1 ≤ m ∧ m ≤ 12 ∧ 1 ≤ d ∧ d ≤ 31 ∧ 1 ≤ y then some (y, m, d) else none
      | _, _, _ => none
  | _ => none

/-- Chronological (lexicographic) order on dates, as Timestamp `<=`. -/
def dateLeB (a b : Date) : Bool :=
  a.1 < b.1 || (a.1 = b.1 && (a.2.1 < b.2.1 || (a.2.1 = b.2.1 && a.2.2 ≤ b.2.2)))

/-- Day number of a civil date (days since 1970-01-01, standard
days-from-civil formula); all divisions act on non-negative values. -/
def daysFromCivil (dt : Date) : ℤ :=
  let y := dt.1
  let m := dt.2.1
  let d := dt.2.2
  let yAdj := if m ≤ 2 then y - 1 else y
  let era := yAdj / 400
  let yoe := yAdj - era * 400
  let doy := (153 * (if m > 2 then m - 3 else m + 9) + 2) / 5 + d - 1
  let doe := yoe * 365 + yoe / 4 - yoe / 100 + doy
  (era : ℤ) * 146097 + (doe : ℤ) - 719468

/-- One scheme verdict (`results[key]` in `assess_scheme_eligibility`). -/
structure EligibilityVerdict where
  eligible : Bool
  reason : String
  scheme_name : String
  url : String
deriving DecidableEq, Repr

/-- The fixed scheme catalog (`BusinessEligibilityEngine.__init__`):
key ↦ (display name, reference URL).  Nine entries. -/
def schemes : List (String × String × String) :=
  [("advance_authorisation", "Advance Authorisation Scheme (Export Incentive)",
    "https://www.dgft.gov.in/advance-authorisation"),
   ("epcg", "Export Promotion Capital Goods (EPCG) Scheme",
    "https://www.dgft.gov.in/epcg"),
   ("startup_tax_benefits", "Startup Tax Benefits",
    "https://startupindia.gov.in/"),
   ("pmmy_loans", "MSME Loans under PMMY",
    "https://www.mudra.org.in/"),
   ("nsic_support", "NSIC Marketing & Credit Support",
    "https://www.nsic.co.in/"),
   ("digital_lending", "Digital Lending Using GST Data",
    "Partner with NBFCs or Fintech platforms"),
   ("gem_platform", "Government e-Marketplace (GeM)",
    "https://gem.gov.in/"),
   ("income_tax_deduction", "Income Tax Profit Deduction for Startups",
    "Claim deduction in Income Tax Return (ITR) filing"),
   ("gst_composition", "GST Composition Scheme",
    "Opt-in via GST portal during registration or return filing")]

/-- Display name of a catalog entry. -/
def schemeName (key : String) : String :=
  ((schemes.lookup key).map Prod.fst).getD ""

/-- Reference URL of a catalog entry. -/
def schemeUrl (key : String) : String :=
  ((schemes.lookup key).map Prod.snd).getD ""

/-- Python `x.lower()`. -/
def pyLower (s : String) : String :=
  ⟨s.data.map Char.toLower⟩

/-- Python substring containment `needle in haystack`, structurally. -/
def isSubstrIn (needle haystack : List Char) : Bool :=
  needle.isPrefixOf haystack ||
    match haystack with
    | [] => false
    | _ :: t => isSubstrIn needle t

/-- The ten special-category states of the composition-scheme rule. -/
def neHillStates : List String :=
  ["arunachal pradesh", "assam", "manipur", "meghalaya", "mizoram",
   "nagaland", "sikkim", "tripura", "himachal pradesh", "uttarakhand"]

/-- The composition-scheme turnover threshold: ₹75 L when the lowercased
state contains any special-category state name as a substring, else ₹1.5 Cr. -/
def compositionThreshold (state : String) : ℚ :=
  if neHillStates.any (fun ne => isSubstrIn ne.data (pyLower state).data)
  then 7500000 else 15000000

/-- The `advance_authorisation` verdict (`results['advance_authorisation']`). -/
def advanceVerdict (business_data : BusinessProfile) : EligibilityVerdict :=
  if business_data.business_type = "exporter" then
    ⟨true, "Eligible as registered exporter with GST data",
     schemeName "advance_authorisation", schemeUrl "advance_authorisation"⟩
  else
    ⟨false, "Only available for exporters",
     schemeName "advance_authorisation", schemeUrl "advance_authorisation"⟩

/-- The `pmmy_loans` verdict. -/
def pmmyVerdict (business_data : BusinessProfile) (gst_metrics : BusinessMetrics) :
    EligibilityVerdict :=
  if business_data.business_type ∈ ["msme", "manufacturer", "trader"] then
    let loan_category :=
      if gst_metrics.annual_turnover < 1000000 then "Shishu"
      else if gst_metrics.annual_turnover < 5000000 then "Kishore" else "Tarun"
    ⟨true, "Eligible for PMMY " ++ loan_category ++ " loan based on turnover",
     schemeName "pmmy_loans", schemeUrl "pmmy_loans"⟩
  else
    ⟨false, "Must be MSME/manufacturer/trader",
     schemeName "pmmy_loans", schemeUrl "pmmy_loans"⟩

/-- The `startup_tax_benefits` verdict.  In the startup branch the
incorporation date is parsed with no exception handler (lines 268–272), so
a parse failure propagates as an error. -/
def startupVerdictE (business_data : BusinessProfile) (gst_metrics : BusinessMetrics) :
    Except String EligibilityVerdict :=
  if business_data.business_type = "startup" then
    match parseDate business_data.incorporation_date with
    | none => Except.error "could not parse incorporation_date"
    | some inc =>
        if dateLeB (2016, 4, 1) inc ∧ gst_metrics.annual_turnover < 1000000000 then
          Except.ok ⟨true, "Eligible startup with turnover < 100 Cr",
            schemeName "startup_tax_benefits", schemeUrl "startup_tax_benefits"⟩
        else
          Except.ok ⟨false, "Must be incorporated after Apr 2016 with turnover < 100 Cr",
            schemeName "startup_tax_benefits", schemeUrl "startup_tax_benefits"⟩
  else
    Except.ok ⟨false, "Only for registered startups",
      schemeName "startup_tax_benefits", schemeUrl "startup_tax_benefits"⟩

/-- The `digital_lending` verdict. -/
def digitalVerdict (gst_metrics : BusinessMetrics) : EligibilityVerdict :=
  if gst_metrics.gst_compliance_score > 60 ∧ gst_metrics.annual_turnover > 500000 then
    ⟨true, "Good GST compliance with sufficient turnover",
     schemeName "digital_lending", schemeUrl "digital_lending"⟩
  else
    ⟨false, "Need better GST compliance and minimum turnover",
     schemeName "digital_lending", schemeUrl "digital_lending"⟩

/-- The `gem_platform` verdict. -/
def gemVerdict (gst_metrics : BusinessMetrics) : EligibilityVerdict :=
  if gst_metrics.filing_frequency ≥ 3 then
    ⟨true, "Regular GST filing history available",
     schemeName "gem_platform", schemeUrl "gem_platform"⟩
  else
    ⟨false, "Need consistent GST filing history",
     schemeName "gem_platform", schemeUrl "gem_platform"⟩

/-- The `gst_composition` verdict (lines 326–347). -/
def compositionVerdict (business_data : BusinessProfile) (gst_metrics : BusinessMetrics) :
    EligibilityVerdict :=
  if gst_metrics.annual_turnover < compositionThreshold business_data.state ∧
      business_data.business_type ∈ ["manufacturer", "trader", "restaurant"] then
    ⟨true, "Turnover below threshold",
     schemeName "gst_composition", schemeUrl "gst_composition"⟩
  else
    ⟨false, "Turnover exceeds threshold or ineligible business type",
     schemeName "gst_composition", schemeUrl "gst_composition"⟩

/-- `BusinessEligibilityEngine.assess_scheme_eligibility`: one verdict per
encoded scheme, in the source's insertion order; a date-parse failure in
the startup branch propagates.  (Formatted reason strings are simplified to
plain literals; no claim reads them.) -/
def assess_scheme_eligibility (business_data : BusinessProfile) (gst_metrics : BusinessMetrics) :
    Except String (List (String × EligibilityVerdict)) :=
  match startupVerdictE business_data gst_metrics with
  | Except.error e => Except.error e
  | Except.ok startupV =>
      Except.ok
        [("advance_authorisation", advanceVerdict business_data),
         ("pmmy_loans", pmmyVerdict business_data gst_metrics),
         ("startup_tax_benefits", startupV),
         ("digital_lending", digitalVerdict gst_metrics),
         ("gem_platform", gemVerdict gst_metrics),
         ("gst_composition", compositionVerdict business_data gst_metrics)]

/-- Per-grade base interest rates (`LoanAssessmentEngine.__init__`); the
grade is always one of the four produced by `calculate_credit_score`. -/
def baseInterestRate (grade : String) : ℚ :=
  if grade = "excellent" then 9
  else if grade = "good" then 11.5
  else if grade = "fair" then 14
  else 17.5

/-- Per-grade loan multipliers (`loan_multipliers` dict). -/
def loanMultiplier (grade : String) : ℚ :=
  if grade = "excellent" then 0.30
  else if grade = "good" then 0.25
  else if grade = "fair" then 0.20
  else 0.15

/-- The business-vintage tier of the credit score (lines 392–405): parse the
incorporation date, divide the elapsed days by 365.25; the `except` handler
maps a parse failure to a fixed 25-point contribution.  `now` is the current
day number (`datetime.now()` made explicit). -/
def vintageScore (incorporation_date : String) (now : ℤ) : ℚ :=
  match parseDate incorporation_date with
  | none => 25
  | some inc =>
      let years : ℚ := ((now - daysFromCivil inc : ℤ) : ℚ) / (1461 / 4 : ℚ)
      if years > 5 then 100
      else if years > 3 then 75
      else if years > 1 then 50
      else if years > 1 / 2 then 25
      else 0

/-- `LoanAssessmentEngine.calculate_credit_score`: additive score from 300,
capped at 900, plus a grade from fixed thresholds. -/
def calculate_credit_score (business_data : BusinessProfile) (gst_metrics : BusinessMetrics)
    (now : ℤ) : ℚ × String :=
  let gst_compliance := gst_metrics.gst_compliance_score
  let annual_turnover := gst_metrics.annual_turnover
  let filing_frequency := gst_metrics.filing_frequency
  let b2b_percentage := gst_metrics.b2b_percentage
  let turnoverTier : ℚ :=
    if annual_turnover > 50000000 then 200
    else if annual_turnover > 10000000 then 150
    else if annual_turnover > 5000000 then 100
    else if annual_turnover > 1000000 then 75
    else if annual_turnover > 500000 then 50
    else 0
  let filingTier : ℚ :=
    if filing_frequency ≥ 12 then 100
    else if filing_frequency ≥ 6 then 75
    else if filing_frequency ≥ 3 then 50
    else if filing_frequency ≥ 1 then 25
    else 0
  let b2bTier : ℚ :=
    if b2b_percentage > 70 then 100
    else if b2b_percentage > 40 then 75
    else if b2b_percentage > 10 then 50
    else 25
  let score : ℚ :=
    300 + min 200 (gst_compliance * 2) + turnoverTier + filingTier +
      vintageScore business_data.incorporation_date now + b2bTier
  let score := min score 900
  let grade :=
    if score ≥ 750 then "excellent"
    else if score ≥ 650 then "good"
    else if score ≥ 500 then "fair"
    else "poor"
  (score, grade)

/-- The business-type interest-rate adjustment (lines 461–464). -/
def typeRateAdjust (business_type : String) : ℚ :=
  if business_type = "startup" then 1.5
  else if business_type = "exporter" then -0.5
  else 0

/-- The profit-margin interest-rate adjustment (lines 466–469): `-0.5` above
20, `+1.0` below 5, else nothing. -/
def profitMarginAdjust (profit_margin : ℚ) : ℚ :=
  if profit_margin > 20 then -0.5
  else if profit_margin < 5 then 1
  else 0

/-- The GST-compliance interest-rate adjustment (lines 472–476). -/
def complianceRateAdjust (gst_compliance : ℚ) : ℚ :=
  if gst_compliance > 80 then -0.5
  else if gst_compliance < 50 then 1
  else 0

/-- The result record of `calculate_loan_eligibility`. -/
structure LoanAssessment where
  credit_score : ℚ
  credit_grade : String
  max_loan_amount : ℚ
  recommended_amount : ℚ
  interest_rate : ℚ
  max_tenure_years : Nat
  monthly_emi : ℚ
  total_interest : ℚ
  approval_probability : ℚ
  annual_turnover : ℚ
  profit_margin : ℚ
deriving DecidableEq, Repr

/-- `LoanAssessmentEngine.calculate_loan_eligibility`: the complete loan
assessment.  `now` is the current day number, threaded through to the
credit-score vintage tier. -/
def calculate_loan_eligibility (business_data : BusinessProfile) (gst_metrics : BusinessMetrics)
    (now : ℤ) : LoanAssessment :=
  let sg := calculate_credit_score business_data gst_metrics now
  let credit_score := sg.1
  let credit_grade := sg.2
  let annual_turnover := gst_metrics.annual_turnover
  let profit_margin := gst_metrics.profit_margin_estimate
  let business_type := business_data.business_type
  let max_loan_amount := annual_turnover * loanMultiplier credit_grade
  let max_loan_amount :=
    if business_type = "startup" then max_loan_amount * 0.8
    else if business_type = "exporter" then max_loan_amount * 1.2
    else max_loan_amount
  let gst_compliance := gst_metrics.gst_compliance_score
  let base_rate :=
    baseInterestRate credit_grade + typeRateAdjust business_type +
      profitMarginAdjust profit_margin + complianceRateAdjust gst_compliance
  let final_interest_rate := max base_rate 8.5
  let max_tenure_years : Nat :=
    if credit_score > 700 then 7 else if credit_score > 600 then 5 else 3
  let recommended_amount := min max_loan_amount 1000000
  let monthly_rate := final_interest_rate / (12 * 100)
  let tenure_months := max_tenure_years * 12
  let emi :=
    if monthly_rate > 0 then
      recommended_amount * monthly_rate * (1 + monthly_rate) ^ tenure_months /
        ((1 + monthly_rate) ^ tenure_months - 1)
    else recommended_amount / (tenure_months : ℚ)
  let approval_probability :=
    min 95 (min 30 (credit_score / 25) + min 25 (gst_compliance / 4) +
      min 20 (annual_turnover / 250000) + min 15 profit_margin +
      (if gst_metrics.filing_frequency ≥ 6 then (10 : ℚ) else 5))
  { credit_score
    credit_grade
    max_loan_amount
    recommended_amount
    interest_rate := final_interest_rate
    max_tenure_years
    monthly_emi := emi
    total_interest := emi * (tenure_months : ℚ) - recommended_amount
    approval_probability
    annual_turnover
    profit_margin }

/-! ## Helper lemmas -/

/-- Inversion for a successful aggregation: the metrics record is the body
applied to the (necessarily non-empty) input. -/
theorem aggregate_some {ms : List MonthlySummary} {gm : BusinessMetrics}
    (h : calculate_aggregate_metrics ms = some gm) : gm = aggregateBody ms := by
  unfold calculate_aggregate_metrics at h
  split at h
  · exact Option.noConfusion h
  · exact (Option.some.inj h).symm

/-- The vintage tier contributes a non-negative amount for any date string
and any current day. -/
theorem vintage_nonneg (s : String) (now : ℤ) : 0 ≤ vintageScore s now := by
  rw [vintageScore]
  rcases parseDate s with _ | d
  · norm_num
  · simp only
    split_ifs <;> norm_num

/-- Stripping surrounding whitespace is idempotent on character lists. -/
theorem stripList_idem (l : List Char) : stripList (stripList l) = stripList l := by
  have hdef : ∀ x : List Char, stripList x =
      List.rdropWhile Char.isWhitespace (x.dropWhile Char.isWhitespace) := fun _ => rfl
  rw [hdef, hdef]
  have hB : (List.rdropWhile Char.isWhitespace
      (l.dropWhile Char.isWhitespace)).dropWhile Char.isWhitespace =
      List.rdropWhile Char.isWhitespace (l.dropWhile Char.isWhitespace) := by
    rw [List.dropWhile_eq_self_iff]
    intro hl
    have hpre := List.rdropWhile_prefix Char.isWhitespace (l.dropWhile Char.isWhitespace)
    have hlen : 0 < (l.dropWhile Char.isWhitespace).length :=
      lt_of_lt_of_le hl (List.IsPrefix.length_le hpre)
    have hnot := List.dropWhile_get_zero_not Char.isWhitespace l hlen
    simpa [List.get_eq_getElem, List.IsPrefix.getElem hpre] using hnot
  rw [hB, List.rdropWhile_idempotent]

/-- `pdStrip` is idempotent. -/
theorem pdStrip_idem (s : String) : pdStrip (pdStrip s) = pdStrip s := by
  rw [pdStrip, pdStrip, stripList_idem]

/-- The credit score reported in a loan assessment is the credit-score
computation's first component. -/
theorem creditScore_proj (bd : BusinessProfile) (gm : BusinessMetrics) (now : ℤ) :
    (calculate_loan_eligibility bd gm now).credit_score = (calculate_credit_score bd gm now).1 :=
  rfl

/-! ## Concrete sample data -/

/-- An empty table, as produced for an absent or unparseable file. -/
def emptyDF : DataFrame := ⟨[], []⟩

/-- A non-empty B2B table that lacks the `Invoice Value` column. -/
def b2bMissingInvoice : DataFrame := ⟨["Foo"], [[some (Val.num 1)]]⟩

/-- A one-row B2B table carrying only `Invoice Value`. -/
def b2bSample : DataFrame := ⟨["Invoice Value"], [[some (Val.num 100000)]]⟩

/-- A startup profile whose incorporation date does not parse. -/
def bdBadDate : BusinessProfile := ⟨"", "", "startup", "goods", "not-a-date", "Gujarat"⟩

/-- A startup profile incorporated before the 2016-04-01 cutoff. -/
def bdStartup2015 : BusinessProfile := ⟨"", "", "startup", "goods", "2015-01-01", "Gujarat"⟩

/-- A trader in Sikkim (special-category state). -/
def bdSikkim : BusinessProfile := ⟨"", "", "trader", "goods", "2018-01-01", "Sikkim"⟩

/-- Metrics with an annual turnover of ₹60 L. -/
def gmSikkim : BusinessMetrics := ⟨6000000, 0, 0, 0, 0, 0, 100, 1, 0, true, 10, 15⟩

/-- All-zero metrics (b2c percentage 100, default profit margin 10). -/
def gmZero : BusinessMetrics := ⟨0, 0, 0, 0, 0, 0, 100, 0, 0, true, 10, 0⟩

/-- An MSME profile incorporated 2020-01-01. -/
def bdVintage : BusinessProfile := ⟨"", "", "msme", "goods", "2020-01-01", "Gujarat"⟩

/-- One month's summary: two B2B invoices, one B2C sale, 18% rate. -/
def sampleSummary : MonthlySummary :=
  ⟨"Month 1", 2, 1, 0, 100000, 20000, 120000, 0, 18000, 0, [Val.num 18], 0, 0, 2⟩

/-! ## Claim theorems -/

/-- C1 (amended): in `analyze_monthly_data`, every guarded consumed column
(`Taxable Value`/`Rate` for B2B GST, `GSTIN/UIN of Recipient`, `Rate`,
and the purchase columns) silently skips its sub-computation when absent,
contributing zero; but the unguarded primary sales columns must be present:
whenever a non-empty B2B table has `Invoice Value` and a non-empty B2C
table has `Taxable Value`, the operation returns a summary without error,
with absent guarded columns contributing zero/empty. -/
theorem analyze_monthly_guarded_columns_skip (month : String) (b2b b2c purch : DataFrame)
    (h1 : b2b.isEmptyDF = false → "Invoice Value" ∈ b2b.cols)
    (h2 : b2c.isEmptyDF = false → "Taxable Value" ∈ b2c.cols) :
    ∃ s, analyze_monthly_data month b2b b2c purch = Except.ok s ∧
      ("GSTIN/UIN of Recipient" ∉ b2b.cols → s.unique_customers = 0) ∧
      ("Rate" ∉ b2b.cols ∧ "Rate" ∉ b2c.cols →
        s.gst_collected = 0 ∧ s.tax_rates_used = []) ∧
      ("Taxable Value" ∉ purch.cols ∧ "Invoice Value" ∉ purch.cols →
        s.total_purchases = 0) := by
  have hp : ("Taxable Value" ∉ purch.cols ∧ "Invoice Value" ∉ purch.cols →
      purchaseBlock purch = 0) := by
    intro hn
    rw [purchaseBlock]
    split_ifs with ha hb hcc
    · rfl
    · exact absurd hb hn.1
    · exact absurd hcc hn.2
    · rfl
  have hb2b : ∃ q g u rs, b2bBlock b2b = Except.ok (q, g, u, rs) ∧
      ("GSTIN/UIN of Recipient" ∉ b2b.cols → u = 0) ∧
      ("Rate" ∉ b2b.cols → g = 0 ∧ rs = []) := by
    cases hb : b2b.isEmptyDF with
    | true => exact ⟨0, 0, 0, [], by simp [b2bBlock, hb], fun _ => rfl, fun _ => ⟨rfl, rfl⟩⟩
    | false =>
        have hIV := h1 hb
        refine ⟨b2b.sumColFilled "Invoice Value",
          (if "Taxable Value" ∈ b2b.cols ∧ "Rate" ∈ b2b.cols then
            b2b.gstSum "Taxable Value" "Rate" else 0),
          (if "GSTIN/UIN of Recipient" ∈ b2b.cols then
            b2b.nuniqueCol "GSTIN/UIN of Recipient" else 0),
          (if "Rate" ∈ b2b.cols then b2b.colDistinct "Rate" else []),
          ?_, fun hnm => ?_, fun hnr => ⟨?_, ?_⟩⟩
        · rw [b2bBlock, if_neg (by simp [hb]), if_pos hIV]
        · simp [hnm]
        · simp [hnr]
        · simp [hnr]
  have hb2c : ∃ q g rs, b2cBlock b2c = Except.ok (q, g, rs) ∧
      ("Rate" ∉ b2c.cols → g = 0 ∧ rs = []) := by
    cases hb : b2c.isEmptyDF with
    | true => exact ⟨0, 0, [], by simp [b2cBlock, hb], fun _ => ⟨rfl, rfl⟩⟩
    | false =>
        have hTV := h2 hb
        refine ⟨b2c.sumColFilled "Taxable Value",
          (if "Rate" ∈ b2c.cols then b2c.gstSum "Taxable Value" "Rate" else 0),
          (if "Rate" ∈ b2c.cols then b2c.colDistinct "Rate" else []),
          ?_, fun hnr => ⟨?_, ?_⟩⟩
        · rw [b2cBlock, if_neg (by simp [hb]), if_pos hTV]
        · simp [hnr]
        · simp [hnr]
  obtain ⟨q1, g1, u1, rs1, hEq1, hu1, hg1⟩ := hb2b
  obtain ⟨q2, g2, rs2, hEq2, hg2⟩ := hb2c
  refine ⟨⟨month, b2b.rows.length, b2c.rows.length, purch.rows.length, q1, q2, q1 + q2,
      purchaseBlock purch, g1 + g2, 0, (rs1 ++ rs2).dedup, 0, 0, u1⟩, ?_, ?_, ?_, ?_⟩
  · rw [analyze_monthly_data, hEq1, hEq2]
    rfl
  · intro hnm
    exact hu1 hnm
  · intro hnr
    rcases hg1 hnr.1 with ⟨hga, hgb⟩
    rcases hg2 hnr.2 with ⟨hgc, hgd⟩
    constructor
    · show g1 + g2 = 0
      rw [hga, hgc, add_zero]
    · show (rs1 ++ rs2).dedup = []
      rw [hgb, hgd]
      rfl
  · intro hn
    exact hp hn

/-- C1 (counterexample): a non-empty B2B table without `Invoice Value`
makes `analyze_monthly_data` raise a KeyError instead of returning a
summary, contradicting the claim that missing consumed columns are always
skipped silently. -/
theorem analyze_monthly_missing_invoice_value_errors :
    analyze_monthly_data "January" b2bMissingInvoice emptyDF emptyDF =
      Except.error "KeyError: Invoice Value" := rfl

/-- C1 (witness): the amended theorem applied to a concrete one-row B2B
table carrying only `Invoice Value`. -/
theorem analyze_monthly_guarded_columns_skip_witness :
    ∃ s, analyze_monthly_data "Month 1" b2bSample emptyDF emptyDF = Except.ok s ∧
      ("GSTIN/UIN of Recipient" ∉ b2bSample.cols → s.unique_customers = 0) ∧
      ("Rate" ∉ b2bSample.cols ∧ "Rate" ∉ emptyDF.cols →
        s.gst_collected = 0 ∧ s.tax_rates_used = []) ∧
      ("Taxable Value" ∉ emptyDF.cols ∧ "Invoice Value" ∉ emptyDF.cols →
        s.total_purchases = 0) :=
  analyze_monthly_guarded_columns_skip "Month 1" b2bSample emptyDF emptyDF
    (by decide) (by decide)

/-- C2 (amended): for a startup profile, `assess_scheme_eligibility` is
gated on the incorporation date parsing: a parse failure propagates as an
error (the branch has no exception handler) instead of yielding an
ineligible verdict; when the date parses, a `startup_tax_benefits` verdict
is returned whose eligibility holds exactly when the date is on or after
2016-04-01 and the annual turnover is below 1,000,000,000. -/
theorem startup_date_parse_gates_assessment (bd : BusinessProfile) (gm : BusinessMetrics)
    (hst : bd.business_type = "startup") :
    (parseDate bd.incorporation_date = none →
      assess_scheme_eligibility bd gm = Except.error "could not parse incorporation_date") ∧
    (∀ d, parseDate bd.incorporation_date = some d →
      ∃ v, startupVerdictE bd gm = Except.ok v ∧
        (assess_scheme_eligibility bd gm).map (fun r => List.lookup "startup_tax_benefits" r) =
          Except.ok (some v) ∧
        (v.eligible = true ↔
          (dateLeB (2016, 4, 1) d = true ∧ gm.annual_turnover < 1000000000))) := by
  constructor
  · intro hpd
    simp [assess_scheme_eligibility, startupVerdictE, hst, hpd]
  · intro d hpd
    have hse : ∃ v, startupVerdictE bd gm = Except.ok v ∧
        (v.eligible = true ↔
          (dateLeB (2016, 4, 1) d = true ∧ gm.annual_turnover < 1000000000)) := by
      simp only [startupVerdictE, hst, if_true, eq_self_iff_true, hpd]
      split_ifs with hc
      · exact ⟨_, rfl, by simpa using hc⟩
      · exact ⟨_, rfl, ⟨fun h => absurd h (by simp), fun h => absurd h hc⟩⟩
    obtain ⟨v, hv, hiff⟩ := hse
    refine ⟨v, hv, ?_, hiff⟩
    simp [assess_scheme_eligibility, hv, Except.map, List.lookup]

/-- C2 (counterexample): a startup whose incorporation date does not parse
makes the evaluator raise instead of returning an ineligible verdict. -/
theorem startup_unparseable_date_errors :
    assess_scheme_eligibility bdBadDate gmZero =
      Except.error "could not parse incorporation_date" := rfl

/-- C2 (witness): the amended theorem applied to a startup incorporated
2015-01-01, whose date parses. -/
theorem startup_date_parse_gates_assessment_witness :
    ∃ v, startupVerdictE bdStartup2015 gmZero = Except.ok v ∧
      (assess_scheme_eligibility bdStartup2015 gmZero).map
          (fun r => List.lookup "startup_tax_benefits" r) =
        Except.ok (some v) ∧
      (v.eligible = true ↔
        (dateLeB (2016, 4, 1) (2015, 1, 1) = true ∧ gmZero.annual_turnover < 1000000000)) :=
  (startup_date_parse_gates_assessment bdStartup2015 gmZero rfl).2 (2015, 1, 1) (by decide)

/-- C3 (amended): the verdict mapping of a successful assessment carries
exactly one verdict for each of the six encoded schemes, in order
(`advance_authorisation`, `pmmy_loans`, `startup_tax_benefits`,
`digital_lending`, `gem_platform`, `gst_composition`); the three
catalog-only keys `epcg`, `nsic_support` and `income_tax_deduction`
receive no verdict. -/
theorem assessed_scheme_keys_are_six (bd : BusinessProfile) (gm : BusinessMetrics) :
    (assess_scheme_eligibility bd gm).map (fun r => r.map Prod.fst) =
      (assess_scheme_eligibility bd gm).map (fun _ =>
        ["advance_authorisation", "pmmy_loans", "startup_tax_benefits",
         "digital_lending", "gem_platform", "gst_composition"]) ∧
    (assess_scheme_eligibility bd gm).map (fun r => List.lookup "epcg" r) =
      (assess_scheme_eligibility bd gm).map (fun _ => (none : Option EligibilityVerdict)) ∧
    (assess_scheme_eligibility bd gm).map (fun r => List.lookup "nsic_support" r) =
      (assess_scheme_eligibility bd gm).map (fun _ => (none : Option EligibilityVerdict)) ∧
    (assess_scheme_eligibility bd gm).map (fun r => List.lookup "income_tax_deduction" r) =
      (assess_scheme_eligibility bd gm).map (fun _ => (none : Option EligibilityVerdict)) := by
  refine ⟨?_, ?_, ?_, ?_⟩ <;> (simp only [assess_scheme_eligibility]; split <;> rfl)

/-- C3 (counterexample): on a concrete successful run the mapping holds no
verdict for the catalog key `epcg`, refuting the claim that every one of
the nine catalog keys receives a verdict. -/
theorem epcg_key_missing_from_assessment :
    (assess_scheme_eligibility bdSikkim gmSikkim).map (fun r => List.lookup "epcg" r) =
      Except.ok none := rfl

/-- C4 (amended): the loan assessment is a pure function of the profile,
the metrics and the current date; it depends on the current date only
through the business-vintage tier of the credit score. -/
theorem loan_assessment_determined_by_args_and_date (bd : BusinessProfile)
    (gm : BusinessMetrics) (now nowB : ℤ)
    (h : vintageScore bd.incorporation_date now = vintageScore bd.incorporation_date nowB) :
    calculate_loan_eligibility bd gm now = calculate_loan_eligibility bd gm nowB := by
  have hcs : calculate_credit_score bd gm now = calculate_credit_score bd gm nowB := by
    simp only [calculate_credit_score, h]
  simp only [calculate_loan_eligibility, hcs]

/-- C4 (counterexample): with identical profile and metrics, two runs on
different current dates return different loan assessments (the credit
score moves with the implicit `datetime.now()`), refuting purity in the
two arguments alone. -/
theorem loan_assessment_varies_with_current_date :
    calculate_loan_eligibility bdVintage gmZero 18322 ≠
      calculate_loan_eligibility bdVintage gmZero 20800 := by
  have hpd : parseDate "2020-01-01" = some (2020, 1, 1) := by decide
  have hd : daysFromCivil (2020, 1, 1) = 18262 := by decide
  have hv1 : vintageScore "2020-01-01" 18322 = 0 := by
    simp only [vintageScore, hpd, hd]
    norm_num
  have hv2 : vintageScore "2020-01-01" 20800 = 100 := by
    simp only [vintageScore, hpd, hd]
    norm_num
  have hs1 : (calculate_credit_score bdVintage gmZero 18322).1 = 325 := by
    simp only [calculate_credit_score, bdVintage, gmZero, hv1]
    norm_num [min_def]
  have hs2 : (calculate_credit_score bdVintage gmZero 20800).1 = 425 := by
    simp only [calculate_credit_score, bdVintage, gmZero, hv2]
    norm_num [min_def]
  intro heq
  have hproj := congrArg LoanAssessment.credit_score heq
  rw [creditScore_proj, creditScore_proj, hs1, hs2] at hproj
  norm_num at hproj

/-- C4 (witness): the amended theorem applied to two concrete days in the
same vintage tier of a 2020 incorporation. -/
theorem loan_assessment_determined_by_args_and_date_witness :
    calculate_loan_eligibility bdVintage gmZero 20800 =
      calculate_loan_eligibility bdVintage gmZero 20801 :=
  loan_assessment_determined_by_args_and_date bdVintage gmZero 20800 20801 (by
    have hpd : parseDate "2020-01-01" = some (2020, 1, 1) := by decide
    have hd : daysFromCivil (2020, 1, 1) = 18262 := by decide
    show vintageScore "2020-01-01" 20800 = vintageScore "2020-01-01" 20801
    simp only [vintageScore, hpd, hd]
    norm_num)

/-- C5 (amended): the B2B and B2C parsers strip every column name of
surrounding whitespace; the purchase parser performs no such stripping and
returns the column names exactly as parsed. -/
theorem sales_parsers_trim_column_names (content : String) :
    (∀ c ∈ (parse_b2b_file content).cols, pdStrip c = c) ∧
    (∀ c ∈ (parse_b2c_file content).cols, pdStrip c = c) ∧
    (parse_purchase_file content).cols =
      (if pyStartswith content "GSTIN" then (parseCSV content).cols else []) := by
  refine ⟨?_, ?_, ?_⟩
  · intro c hc
    rw [parse_b2b_file] at hc
    simp only [List.mem_map] at hc
    obtain ⟨c0, _, rfl⟩ := hc
    exact pdStrip_idem c0
  · intro c hc
    rw [parse_b2c_file] at hc
    simp only [List.mem_map] at hc
    obtain ⟨c0, _, rfl⟩ := hc
    exact pdStrip_idem c0
  · rw [parse_purchase_file]
    split_ifs <;> rfl

/-- C5 (counterexample): a purchase file whose header has a padded column
name comes back with the whitespace intact, refuting the claim that every
parser output has trimmed column names. -/
theorem purchase_parser_keeps_whitespace_column :
    ¬ (∀ c ∈ (parse_purchase_file "GSTIN, Amount \nx,y").cols, pdStrip c = c) := by
  decide

/-- C6 (confirmed): for metrics aggregated from any non-empty sequence of
monthly summaries, the credit score lies in [300, 900] and the grade is
determined by the inclusive thresholds 750 / 650 / 500. -/
theorem credit_score_range_and_grade (ms : List MonthlySummary) (gm : BusinessMetrics)
    (bd : BusinessProfile) (now : ℤ)
    (h : calculate_aggregate_metrics ms = some gm) :
    300 ≤ (calculate_credit_score bd gm now).1 ∧
    (calculate_credit_score bd gm now).1 ≤ 900 ∧
    (calculate_credit_score bd gm now).2 =
      (if (calculate_credit_score bd gm now).1 ≥ 750 then "excellent"
       else if (calculate_credit_score bd gm now).1 ≥ 650 then "good"
       else if (calculate_credit_score bd gm now).1 ≥ 500 then "fair"
       else "poor") := by
  have hg : 0 ≤ gm.gst_compliance_score := by
    rcases aggregate_some h with rfl
    simp only [aggregateBody]
    refine le_min (by norm_num) ?_
    have : (0:ℚ) ≤ (ms.length : ℚ) * 15 := by positivity
    split_ifs <;> linarith
  refine ⟨?_, ?_, ?_⟩
  · simp only [calculate_credit_score]
    refine le_min ?_ (by norm_num)
    have hA : (0:ℚ) ≤ min 200 (gm.gst_compliance_score * 2) :=
      le_min (by norm_num) (by linarith)
    have hB : (0:ℚ) ≤ (if gm.annual_turnover > 50000000 then (200:ℚ)
        else if gm.annual_turnover > 10000000 then 150
        else if gm.annual_turnover > 5000000 then 100
        else if gm.annual_turnover > 1000000 then 75
        else if gm.annual_turnover > 500000 then 50 else 0) := by
      split_ifs <;> norm_num
    have hC : (0:ℚ) ≤ (if gm.filing_frequency ≥ 12 then (100:ℚ)
        else if gm.filing_frequency ≥ 6 then 75
        else if gm.filing_frequency ≥ 3 then 50
        else if gm.filing_frequency ≥ 1 then 25 else 0) := by
      split_ifs <;> norm_num
    have hD : (0:ℚ) ≤ vintageScore bd.incorporation_date now := vintage_nonneg _ _
    have hE : (0:ℚ) ≤ (if gm.b2b_percentage > 70 then (100:ℚ)
        else if gm.b2b_percentage > 40 then 75
        else if gm.b2b_percentage > 10 then 50 else 25) := by
      split_ifs <;> norm_num
    linarith
  · simp only [calculate_credit_score]
    exact min_le_right _ _
  · rfl

/-- C6 (witness): the range-and-grade theorem applied to one concrete
month of data. -/
theorem credit_score_range_and_grade_witness :
    300 ≤ (calculate_credit_score bdVintage (aggregateBody [sampleSummary]) 20800).1 ∧
    (calculate_credit_score bdVintage (aggregateBody [sampleSummary]) 20800).1 ≤ 900 ∧
    (calculate_credit_score bdVintage (aggregateBody [sampleSummary]) 20800).2 =
      (if (calculate_credit_score bdVintage (aggregateBody [sampleSummary]) 20800).1 ≥ 750
       then "excellent"
       else if (calculate_credit_score bdVintage (aggregateBody [sampleSummary]) 20800).1 ≥ 650
       then "good"
       else if (calculate_credit_score bdVintage (aggregateBody [sampleSummary]) 20800).1 ≥ 500
       then "fair"
       else "poor") :=
  credit_score_range_and_grade [sampleSummary] (aggregateBody [sampleSummary])
    bdVintage 20800 rfl

/-- C7 (confirmed): for metrics aggregated from any non-empty sequence of
monthly summaries, the compliance score lies in [0, 100] and equals
`min 100 (filing_frequency * 15 + 50·[uses standard rates])`, and the
profit-margin estimate lies in [5, 25] when total sales are positive and
equals 10 when they are zero. -/
theorem compliance_score_and_profit_margin_bounds (ms : List MonthlySummary)
    (gm : BusinessMetrics) (h : calculate_aggregate_metrics ms = some gm) :
    (0 ≤ gm.gst_compliance_score ∧ gm.gst_compliance_score ≤ 100) ∧
    gm.gst_compliance_score =
      min 100 ((gm.filing_frequency : ℚ) * 15 + (if gm.uses_standard_rates then 50 else 0)) ∧
    (0 < gm.total_sales → 5 ≤ gm.profit_margin_estimate ∧ gm.profit_margin_estimate ≤ 25) ∧
    (gm.total_sales = 0 → gm.profit_margin_estimate = 10) := by
  rcases aggregate_some h with rfl
  simp only [aggregateBody]
  refine ⟨⟨?_, min_le_left _ _⟩, ?_, ?_, ?_⟩
  · refine le_min (by norm_num) ?_
    have : (0:ℚ) ≤ (ms.length : ℚ) * 15 := by positivity
    split_ifs <;> linarith
  · trivial
  · intro hp
    rw [if_pos hp]
    exact ⟨le_max_left _ _, max_le (by norm_num) (min_le_left _ _)⟩
  · intro hz
    rw [if_neg (by rw [hz]; exact lt_irrefl 0)]

/-- C7 (witness): the compliance/profit-margin theorem applied to one
concrete month of data. -/
theorem compliance_score_and_profit_margin_bounds_witness :
    (0 ≤ (aggregateBody [sampleSummary]).gst_compliance_score ∧
      (aggregateBody [sampleSummary]).gst_compliance_score ≤ 100) ∧
    (aggregateBody [sampleSummary]).gst_compliance_score =
      min 100 (((aggregateBody [sampleSummary]).filing_frequency : ℚ) * 15 +
        (if (aggregateBody [sampleSummary]).uses_standard_rates then 50 else 0)) ∧
    (0 < (aggregateBody [sampleSummary]).total_sales →
      5 ≤ (aggregateBody [sampleSummary]).profit_margin_estimate ∧
      (aggregateBody [sampleSummary]).profit_margin_estimate ≤ 25) ∧
    ((aggregateBody [sampleSummary]).total_sales = 0 →
      (aggregateBody [sampleSummary]).profit_margin_estimate = 10) :=
  compliance_score_and_profit_margin_bounds [sampleSummary] (aggregateBody [sampleSummary]) rfl

/-- C8 (confirmed): for metrics aggregated from any non-empty sequence of
monthly summaries, the B2B and B2C percentages add to 100; with positive
total sales the B2B percentage is `100 · Σ b2b_sales / total_sales`, and
with zero total sales the split is 0 / 100. -/
theorem b2b_b2c_percentage_partition (ms : List MonthlySummary) (gm : BusinessMetrics)
    (h : calculate_aggregate_metrics ms = some gm) :
    gm.b2b_percentage + gm.b2c_percentage = 100 ∧
    (0 < gm.total_sales →
      gm.b2b_percentage = 100 * (ms.map (·.b2b_sales)).sum / gm.total_sales) ∧
    (gm.total_sales = 0 → gm.b2b_percentage = 0 ∧ gm.b2c_percentage = 100) := by
  rcases aggregate_some h with rfl
  simp only [aggregateBody]
  refine ⟨by ring, ?_, ?_⟩
  · intro hp
    rw [if_pos hp]
    ring
  · intro hz
    rw [if_neg (by rw [hz]; exact lt_irrefl 0)]
    norm_num

/-- C8 (witness): the percentage-partition theorem applied to one concrete
month of data. -/
theorem b2b_b2c_percentage_partition_witness :
    (aggregateBody [sampleSummary]).b2b_percentage +
      (aggregateBody [sampleSummary]).b2c_percentage = 100 ∧
    (0 < (aggregateBody [sampleSummary]).total_sales →
      (aggregateBody [sampleSummary]).b2b_percentage =
        100 * ([sampleSummary].map (·.b2b_sales)).sum /
          (aggregateBody [sampleSummary]).total_sales) ∧
    ((aggregateBody [sampleSummary]).total_sales = 0 →
      (aggregateBody [sampleSummary]).b2b_percentage = 0 ∧
      (aggregateBody [sampleSummary]).b2c_percentage = 100) :=
  b2b_b2c_percentage_partition [sampleSummary] (aggregateBody [sampleSummary]) rfl

/-- C9 (confirmed): on any successful assessment the `gst_composition`
verdict is present and is eligible exactly when the business type is
manufacturer, trader or restaurant and the annual turnover is strictly
below the threshold, which is 7,500,000 when the lowercased state contains
one of the ten special-category state names as a substring and 15,000,000
otherwise. -/
theorem gst_composition_eligibility_rule (bd : BusinessProfile) (gm : BusinessMetrics)
    (r : List (String × EligibilityVerdict))
    (hr : assess_scheme_eligibility bd gm = Except.ok r) :
    List.lookup "gst_composition" r = some (compositionVerdict bd gm) ∧
    ((compositionVerdict bd gm).eligible = true ↔
      (bd.business_type ∈ ["manufacturer", "trader", "restaurant"] ∧
        gm.annual_turnover <
          (if neHillStates.any (fun ne => isSubstrIn ne.data (pyLower bd.state).data)
           then (7500000 : ℚ) else 15000000))) := by
  constructor
  · simp only [assess_scheme_eligibility] at hr
    split at hr
    · exact Except.noConfusion hr
    · rcases Except.ok.inj hr with rfl
      rfl
  · have hthr : (if neHillStates.any (fun ne => isSubstrIn ne.data (pyLower bd.state).data)
        then (7500000 : ℚ) else 15000000) = compositionThreshold bd.state := by
      rw [compositionThreshold]
    rw [hthr, compositionVerdict]
    split_ifs with hc
    · exact ⟨fun _ => ⟨hc.2, hc.1⟩, fun _ => rfl⟩
    · exact ⟨fun hfalse => hfalse.elim, fun hcon => absurd ⟨hcon.2, hcon.1⟩ hc⟩

/-- C9 (witness): the composition rule applied to a trader in Sikkim with
₹60 L turnover, which is eligible against the ₹75 L special-category
threshold. -/
theorem gst_composition_eligibility_rule_witness :
    ∃ r, assess_scheme_eligibility bdSikkim gmSikkim = Except.ok r ∧
      List.lookup "gst_composition" r = some (compositionVerdict bdSikkim gmSikkim) ∧
      (compositionVerdict bdSikkim gmSikkim).eligible = true := by
  have hr : assess_scheme_eligibility bdSikkim gmSikkim = Except.ok
      [("advance_authorisation", advanceVerdict bdSikkim),
       ("pmmy_loans", pmmyVerdict bdSikkim gmSikkim),
       ("startup_tax_benefits",
         ⟨false, "Only for registered startups",
          schemeName "startup_tax_benefits", schemeUrl "startup_tax_benefits"⟩),
       ("digital_lending", digitalVerdict gmSikkim),
       ("gem_platform", gemVerdict gmSikkim),
       ("gst_composition", compositionVerdict bdSikkim gmSikkim)] := rfl
  obtain ⟨hlook, hiff⟩ := gst_composition_eligibility_rule bdSikkim gmSikkim _ hr
  exact ⟨_, hr, hlook, hiff.mpr (by decide)⟩

/-- C10 (confirmed): metrics aggregated from any non-empty sequence of
monthly summaries have a profit-margin estimate of at least 5, so the
interest-rate branch that adds 1.0 for a profit margin below 5 is never
taken on such metrics: the adjustment reduces to the over-20 discount or
zero. -/
theorem profit_margin_floor_blocks_rate_penalty (ms : List MonthlySummary)
    (gm : BusinessMetrics) (h : calculate_aggregate_metrics ms = some gm) :
    5 ≤ gm.profit_margin_estimate ∧
    profitMarginAdjust gm.profit_margin_estimate =
      (if gm.profit_margin_estimate > 20 then (-0.5 : ℚ) else 0) := by
  rcases aggregate_some h with rfl
  have h5 : 5 ≤ (aggregateBody ms).profit_margin_estimate := by
    simp only [aggregateBody]
    split_ifs with hp
    · exact le_max_left _ _
    · norm_num
  refine ⟨h5, ?_⟩
  rw [profitMarginAdjust]
  split_ifs with h1 h2 <;> first | rfl | linarith

/-- C10 (witness): the profit-margin floor theorem applied to one concrete
month of data. -/
theorem profit_margin_floor_blocks_rate_penalty_witness :
    5 ≤ (aggregateBody [sampleSummary]).profit_margin_estimate ∧
    profitMarginAdjust (aggregateBody [sampleSummary]).profit_margin_estimate =
      (if (aggregateBody [sampleSummary]).profit_margin_estimate > 20
       then (-0.5 : ℚ) else 0) :=
  profit_margin_floor_blocks_rate_penalty [sampleSummary] (aggregateBody [sampleSummary]) rfl

end GST
